import Mathlib

/-!
Verification of the request-forwarding middleware of opbeans-python
(`opbeans/views.py`, `maybe_dt` and its inner `wrapped_view`).

The middleware either serves a request locally or, for GET requests, with a
configured probability, re-issues the request against a randomly chosen peer
service and relays the peer's response. We give a shallow embedding of:

  - the peer-list resolution (`views.py` line 31),
  - the probability configuration with its default (lines 33-36),
  - the per-request forwarding decision (line 41),
  - the target-URL construction and outbound call (lines 42-48),
  - the error propagation on outbound failure (lines 49-54),
  - the response relay with the content-type default (lines 55-60),
  - the wrapping view itself (lines 38-61).

External effects are parameters: the network is a function from the outbound
request to a result, the random draw is an explicit rational `r` together
with a choice index `i`, and Python's `float` builtin is a parameter
`pyFloat : String → Option ℚ`. Probabilities and random draws are modelled
as rationals; the values the claims are about (0, 0.5, 1 and comparisons
against them) are exact in binary floating point, so the order-embedding
into ℚ is faithful for them.
-/

namespace Opbeans

/-- Model of Python's `str.split(sep)` for a one-character separator, on
character lists. Python's split on an empty string yields `[""]`, hence the
base case `[[]]`. -/
def splitOnChar (sep : Char) : List Char → List (List Char)
  | [] => [[]]
  | c :: cs =>
    if c = sep then [] :: splitOnChar sep cs
    else
      match splitOnChar sep cs with
      | [] => [[c]]
      | w :: ws => (c :: w) :: ws

/-- Model of Python's `s.split(sep)` for a one-character separator. -/
def pySplit (sep : Char) (s : String) : List String :=
  (splitOnChar sep s.data).map (fun w => String.mk w)

/-- Substring search on character lists: does `sub` occur contiguously? -/
def isInfixL (sub : List Char) : List Char → Bool
  | [] => sub.isEmpty
  | c :: tl => sub.isPrefixOf (c :: tl) || isInfixL sub tl

/-- Model of Python's `sub in s` substring test. -/
def pyIn (sub s : String) : Bool := isInfixL sub.data s.data

/-- Model of Python's `s.startswith(pre)`. -/
def pyStartsWith (s pre : String) : Bool := pre.data.isPrefixOf s.data

/-- The marker identifying the local service in the configured peer list
(`"opbeans-python" not in s`, `views.py` line 31). -/
def localServiceMarker : String := "opbeans-python"

/-- Service Registry Resolver, `views.py` line 31:
`[s for s in cfg.split(",") if "opbeans-python" not in s]`. -/
def resolveServices (cfg : String) : List String :=
  (pySplit ',' cfg).filter (fun s => ! pyIn localServiceMarker s)

/-- Resolver applied to the environment value:
`os.environ.get("OPBEANS_SERVICES", "")`, an absent variable reads as `""`. -/
def resolveServicesEnv (env : Option String) : List String :=
  resolveServices (env.getD "")

/-- The fallback forwarding probability, `views.py` lines 34 and 36. -/
def defaultProbability : ℚ := 1/2

/-- Probability configuration, `views.py` lines 33-36:
`float(os.environ.get("OPBEANS_DT_PROBABILITY", 0.5))` with a `ValueError`
handler substituting 0.5. An absent variable makes `float` receive the
literal 0.5 and no parse happens; a present value goes through `pyFloat`,
the model of Python's `float` builtin, whose `none` result models the
`ValueError` branch. -/
def effectiveProbability (pyFloat : String → Option ℚ) (env : Option String) : ℚ :=
  match env with
  | none => defaultProbability
  | some s =>
    match pyFloat s with
    | some p => p
    | none => defaultProbability

/-- An inbound HTTP request as the middleware sees it: its method and the
value of `request.get_full_path()` (path plus query string). -/
structure HttpRequest where
  method : String
  fullPath : String
deriving DecidableEq, Repr

/-- The per-request forwarding decision. -/
inductive ForwardingDecision where
  | Local : ForwardingDecision
  | Forward : String → ForwardingDecision
deriving DecidableEq, Repr

/-- Decision Policy, `views.py` lines 39-42: the request is forwarded iff
`request.method == "GET" and other_services and r < probability`, and the
peer is `random.choice(other_services)`, modelled by an arbitrary index `i`
reduced modulo the list length. `r` models `random.random()`. -/
def decideForwarding (method : String) (services : List String) (prob r : ℚ)
    (i : ℕ) : ForwardingDecision :=
  if method = "GET" ∧ services ≠ [] ∧ r < prob then
    ForwardingDecision.Forward (services.getD (i % services.length) "")
  else
    ForwardingDecision.Local

/-- The fixed outbound timeout, `views.py` line 48: `timeout=15`. -/
def requestTimeoutSeconds : ℕ := 15

/-- Target-URL construction, `views.py` lines 43-45: peers not already
starting with `"http://"` get the scheme and the `:3000` port appended,
then the original full path is concatenated. -/
def buildTargetUrl (peer fullPath : String) : String :=
  if pyStartsWith peer "http://" then peer ++ fullPath
  else "http://" ++ peer ++ ":3000" ++ fullPath

/-- The outbound HTTP GET the gateway issues, `views.py` line 48. -/
structure OutboundRequest where
  url : String
  timeoutSeconds : ℕ
deriving DecidableEq, Repr

/-- Builds the outbound call from the chosen peer and the original path. -/
def buildOutboundRequest (peer fullPath : String) : OutboundRequest :=
  { url := buildTargetUrl peer fullPath, timeoutSeconds := requestTimeoutSeconds }

/-- Transport failures of the outbound call, `views.py` lines 49-54:
`requests.exceptions.Timeout` and every other exception. -/
inductive NetworkFailure where
  | timeout : NetworkFailure
  | connectionError : NetworkFailure
deriving DecidableEq, Repr

/-- The peer's HTTP response: status code, raw body bytes, and the
content-type header when present. -/
structure PeerResponse where
  status : ℕ
  content : List ℕ
  contentTypeHeader : Option String
deriving DecidableEq, Repr

/-- The response relayed to the original caller. -/
structure RelayedResponse where
  status : ℕ
  body : List ℕ
  contentType : String
deriving DecidableEq, Repr

/-- Response relay, `views.py` lines 55-60: status and raw body are passed
through; the content-type header is looked up and a `KeyError` is replaced
by `"text/plain"`. -/
def relayResponse (resp : PeerResponse) : RelayedResponse :=
  { status := resp.status
    body := resp.content
    contentType := resp.contentTypeHeader.getD "text/plain" }

/-- Request Interceptor, `views.py` lines 38-61 (`wrapped_view`). The
network is the parameter `net`; the wrapped handler is `viewFunc`, whose
result is returned on the `inr` side when the request is served locally.
On a forwarding decision the outbound call is issued; a failure is
re-raised unchanged (`raise` in both handlers, lines 49-54) and on success
the peer response is relayed on the `inl` side. -/
def wrappedView {α : Type} (net : OutboundRequest → Except NetworkFailure PeerResponse)
    (viewFunc : HttpRequest → α) (services : List String) (prob : ℚ)
    (req : HttpRequest) (r : ℚ) (i : ℕ) :
    Except NetworkFailure (RelayedResponse ⊕ α) :=
  match decideForwarding req.method services prob r i with
  | ForwardingDecision.Local => Except.ok (Sum.inr (viewFunc req))
  | ForwardingDecision.Forward peer =>
    match net (buildOutboundRequest peer req.fullPath) with
    | Except.error e => Except.error e
    | Except.ok resp => Except.ok (Sum.inl (relayResponse resp))

/-- The whole decorator `maybe_dt`, `views.py` lines 27-62: resolves the
peer list and the probability from the environment values, then wraps the
view. -/
def maybe_dt {α : Type} (pyFloat : String → Option ℚ)
    (net : OutboundRequest → Except NetworkFailure PeerResponse)
    (servicesEnv probEnv : Option String) (viewFunc : HttpRequest → α)
    (req : HttpRequest) (r : ℚ) (i : ℕ) :
    Except NetworkFailure (RelayedResponse ⊕ α) :=
  wrappedView net viewFunc (resolveServicesEnv servicesEnv)
    (effectiveProbability pyFloat probEnv) req r i

/-- Claim C1: for every request whose method is not GET, the decision
resolves to Local and the wrapped handler is invoked with the original
request, regardless of the probability, the drawn random value, or the
candidate peer set. -/
theorem c1_non_get_always_local {α : Type}
    (net : OutboundRequest → Except NetworkFailure PeerResponse)
    (viewFunc : HttpRequest → α) (services : List String) (prob r : ℚ) (i : ℕ)
    (req : HttpRequest) (h : req.method ≠ "GET") :
    decideForwarding req.method services prob r i = ForwardingDecision.Local ∧
    wrappedView net viewFunc services prob req r i
      = Except.ok (Sum.inr (viewFunc req)) := by
  have hd : decideForwarding req.method services prob r i
      = ForwardingDecision.Local := by
    unfold decideForwarding
    split
    · rename_i hcond
      exact absurd hcond.1 h
    · rfl
  refine ⟨hd, ?_⟩
  unfold wrappedView
  rw [hd]

/-- Claim C1's witness: a POST request with a candidate peer, probability 1
and a draw below it is still served locally. -/
theorem c1_witness :
    decideForwarding "POST" ["opbeans-node"] 1 0 0 = ForwardingDecision.Local ∧
    wrappedView (fun _ => Except.error NetworkFailure.timeout)
      (fun _ => (0 : ℕ)) ["opbeans-node"] 1
      { method := "POST", fullPath := "/api/orders" } 0 0
      = Except.ok (Sum.inr 0) :=
  c1_non_get_always_local (fun _ => Except.error NetworkFailure.timeout)
    (fun _ => (0 : ℕ)) ["opbeans-node"] 1 0 0
    { method := "POST", fullPath := "/api/orders" } (by decide)

/-- Claim C2: for every GET request with an empty candidate peer set, the
decision is Local and the wrapped handler is invoked, whatever the
probability and the drawn value. -/
theorem c2_empty_candidates_local {α : Type}
    (net : OutboundRequest → Except NetworkFailure PeerResponse)
    (viewFunc : HttpRequest → α) (prob r : ℚ) (i : ℕ)
    (req : HttpRequest) (hm : req.method = "GET") :
    decideForwarding "GET" [] prob r i = ForwardingDecision.Local ∧
    wrappedView net viewFunc [] prob req r i
      = Except.ok (Sum.inr (viewFunc req)) := by
  have hd : decideForwarding "GET" [] prob r i
      = ForwardingDecision.Local := by
    unfold decideForwarding
    split
    · rename_i hcond
      exact absurd rfl hcond.2.1
    · rfl
  refine ⟨hd, ?_⟩
  unfold wrappedView
  rw [hm, hd]

/-- Claim C2's witness: a GET request with no candidates, probability 1 and
a draw of 0 (which is below the probability) is served locally. -/
theorem c2_witness :
    decideForwarding "GET" [] 1 0 0 = ForwardingDecision.Local ∧
    wrappedView (fun _ => Except.error NetworkFailure.timeout)
      (fun _ => (0 : ℕ)) [] 1
      { method := "GET", fullPath := "/api/products" } 0 0
      = Except.ok (Sum.inr 0) :=
  c2_empty_candidates_local (fun _ => Except.error NetworkFailure.timeout)
    (fun _ => (0 : ℕ)) 1 0 0
    { method := "GET", fullPath := "/api/products" } (by decide)

/-- Claim C3: for a GET request with a non-empty candidate set the decision
forwards exactly when the drawn value satisfies r < prob, the forwarded
peer is one of the candidates, probability 0 always yields Local, and
probability 1 always yields Forward, for every r in [0,1). -/
theorem c3_forward_iff_draw_below_probability (services : List String)
    (prob r : ℚ) (i : ℕ) (hne : services ≠ []) (hr0 : 0 ≤ r) (hr1 : r < 1) :
    ((∃ peer, decideForwarding "GET" services prob r i
        = ForwardingDecision.Forward peer) ↔ r < prob) ∧
    (∀ peer, decideForwarding "GET" services prob r i
        = ForwardingDecision.Forward peer → peer ∈ services) ∧
    (prob = 0 → decideForwarding "GET" services prob r i
        = ForwardingDecision.Local) ∧
    (prob = 1 → ∃ peer, decideForwarding "GET" services prob r i
        = ForwardingDecision.Forward peer) := by
  by_cases hlt : r < prob
  · have hd : decideForwarding "GET" services prob r i
        = ForwardingDecision.Forward (services.getD (i % services.length) "") := by
      unfold decideForwarding
      split
      · rfl
      · rename_i hcond
        exact absurd ⟨rfl, hne, hlt⟩ hcond
    have hmem : services.getD (i % services.length) "" ∈ services := by
      have hlen : i % services.length < services.length :=
        Nat.mod_lt _ (List.length_pos.mpr hne)
      rw [List.getD_eq_getElem services "" hlen]
      exact List.getElem_mem hlen
    refine ⟨⟨fun _ => hlt, fun _ => ⟨_, hd⟩⟩, ?_, ?_, fun _ => ⟨_, hd⟩⟩
    · intro peer hp
      rw [hd] at hp
      injection hp with hpeer
      exact hpeer ▸ hmem
    · intro h0
      subst h0
      exact absurd (hr0.trans_lt hlt) (lt_irrefl 0)
  · have hd : decideForwarding "GET" services prob r i
        = ForwardingDecision.Local := by
      unfold decideForwarding
      split
      · rename_i hcond
        exact absurd hcond.2.2 hlt
      · rfl
    refine ⟨⟨?_, fun hh => absurd hh hlt⟩, ?_, fun _ => hd, ?_⟩
    · rintro ⟨peer, hp⟩
      rw [hd] at hp
      exact ForwardingDecision.noConfusion hp
    · intro peer hp
      rw [hd] at hp
      exact ForwardingDecision.noConfusion hp
    · intro h1
      subst h1
      exact absurd hr1 hlt

/-- Claim C3's witness, at one candidate, probability 1 and a draw of 0. -/
theorem c3_witness :
    ((∃ peer, decideForwarding "GET" ["opbeans-node"] 1 0 0
        = ForwardingDecision.Forward peer) ↔ (0 : ℚ) < 1) ∧
    (∀ peer, decideForwarding "GET" ["opbeans-node"] 1 0 0
        = ForwardingDecision.Forward peer → peer ∈ ["opbeans-node"]) ∧
    ((1 : ℚ) = 0 → decideForwarding "GET" ["opbeans-node"] 1 0 0
        = ForwardingDecision.Local) ∧
    ((1 : ℚ) = 1 → ∃ peer, decideForwarding "GET" ["opbeans-node"] 1 0 0
        = ForwardingDecision.Forward peer) :=
  c3_forward_iff_draw_below_probability ["opbeans-node"] 1 0 0
    (by decide) (by decide) (by decide)

/-- Claim C4: when the decision is to forward and the outbound call fails,
the failure is re-raised to the caller: whatever the wrapped handler is,
the result is that very error, so the handler is never invoked and no
local fallback occurs. -/
theorem c4_forwarding_failure_propagates {α : Type}
    (net : OutboundRequest → Except NetworkFailure PeerResponse)
    (services : List String) (prob r : ℚ) (i : ℕ) (req : HttpRequest)
    (peer : String) (e : NetworkFailure)
    (hdec : decideForwarding req.method services prob r i
      = ForwardingDecision.Forward peer)
    (hnet : net (buildOutboundRequest peer req.fullPath) = Except.error e) :
    ∀ viewFunc : HttpRequest → α,
      wrappedView net viewFunc services prob req r i = Except.error e := by
  intro viewFunc
  unfold wrappedView
  simp only [hdec, hnet]

/-- Claim C4's witness: a timed-out forward of a GET request surfaces the
timeout, with the handler result nowhere in the outcome. -/
theorem c4_witness :
    wrappedView (fun _ => Except.error NetworkFailure.timeout)
      (fun _ => (0 : ℕ)) ["opbeans-node"] 1
      { method := "GET", fullPath := "/api/products" } 0 0
      = Except.error NetworkFailure.timeout :=
  c4_forwarding_failure_propagates
    (fun _ => Except.error NetworkFailure.timeout) ["opbeans-node"] 1 0 0
    { method := "GET", fullPath := "/api/products" } "opbeans-node"
    NetworkFailure.timeout (by decide) rfl (fun _ => (0 : ℕ))

/-- Claim C5: when the decision is to forward and the outbound call
succeeds, the relayed response carries the peer's status code, its raw
body bytes unmodified, and its content-type header; a missing content-type
header yields "text/plain" and is not an error. -/
theorem c5_success_relays_response {α : Type}
    (net : OutboundRequest → Except NetworkFailure PeerResponse)
    (viewFunc : HttpRequest → α) (services : List String) (prob r : ℚ)
    (i : ℕ) (req : HttpRequest) (peer : String) (resp : PeerResponse)
    (hdec : decideForwarding req.method services prob r i
      = ForwardingDecision.Forward peer)
    (hnet : net (buildOutboundRequest peer req.fullPath) = Except.ok resp) :
    wrappedView net viewFunc services prob req r i
      = Except.ok (Sum.inl (relayResponse resp)) ∧
    (relayResponse resp).status = resp.status ∧
    (relayResponse resp).body = resp.content ∧
    (∀ ct, resp.contentTypeHeader = some ct
      → (relayResponse resp).contentType = ct) ∧
    (resp.contentTypeHeader = none
      → (relayResponse resp).contentType = "text/plain") := by
  refine ⟨?_, rfl, rfl, ?_, ?_⟩
  · unfold wrappedView
    simp only [hdec, hnet]
  · intro ct hct
    unfold relayResponse
    rw [hct]
    rfl
  · intro hnone
    unfold relayResponse
    rw [hnone]
    rfl

/-- Claim C5's witness: a peer response with status 200, body bytes
[104, 105] and no content-type header is relayed with content-type
"text/plain". -/
theorem c5_witness :
    wrappedView (fun _ => Except.ok (PeerResponse.mk 200 [104, 105] none))
      (fun _ => (0 : ℕ)) ["opbeans-node"] 1
      { method := "GET", fullPath := "/api/products" } 0 0
      = Except.ok (Sum.inl (relayResponse (PeerResponse.mk 200 [104, 105] none))) ∧
    (relayResponse (PeerResponse.mk 200 [104, 105] none)).status = 200 ∧
    (relayResponse (PeerResponse.mk 200 [104, 105] none)).body = [104, 105] ∧
    (∀ ct, (none : Option String) = some ct
      → (relayResponse (PeerResponse.mk 200 [104, 105] none)).contentType = ct) ∧
    ((none : Option String) = none
      → (relayResponse (PeerResponse.mk 200 [104, 105] none)).contentType
        = "text/plain") :=
  c5_success_relays_response
    (fun _ => Except.ok (PeerResponse.mk 200 [104, 105] none))
    (fun _ => (0 : ℕ)) ["opbeans-node"] 1 0 0
    { method := "GET", fullPath := "/api/products" } "opbeans-node"
    (PeerResponse.mk 200 [104, 105] none) (by decide) rfl

/-- Claim C6's counterexample: a peer identifier that already starts with
"http://" is used verbatim, so the target is NOT "http://" ++ peer ++
":3000" ++ path as the claim states for every forwarded request. -/
theorem c6_counterexample :
    buildOutboundRequest "http://svc1" "/"
      = { url := "http://svc1/", timeoutSeconds := 15 } ∧
    buildOutboundRequest "http://svc1" "/"
      ≠ { url := "http://" ++ "http://svc1" ++ ":3000" ++ "/",
          timeoutSeconds := 15 } := by
  constructor
  · rfl
  · decide

/-- Claim C6 (amended): for every forwarded request whose chosen peer does
not already start with "http://", the gateway issues the call with a
15-second timeout to "http://" ++ peer ++ ":3000" ++ the original full
path. -/
theorem c6_url_and_timeout (peer fullPath : String)
    (h : pyStartsWith peer "http://" = false) :
    buildOutboundRequest peer fullPath
      = { url := "http://" ++ peer ++ ":3000" ++ fullPath,
          timeoutSeconds := 15 } := by
  unfold buildOutboundRequest buildTargetUrl requestTimeoutSeconds
  simp [h]

/-- Claim C6's witness: peer "svc1" with GET "/api/products?x=1" yields the
target "http://svc1:3000/api/products?x=1" with a 15-second timeout. -/
theorem c6_witness :
    buildOutboundRequest "svc1" "/api/products?x=1"
      = { url := "http://svc1:3000/api/products?x=1", timeoutSeconds := 15 } :=
  c6_url_and_timeout "svc1" "/api/products?x=1" (by decide)

/-- Claim C7: the resolved candidate sequence is the configured
comma-separated identifiers in their original order with every identifier
containing the local marker "opbeans-python" removed, and nothing else
removed: the result is a subsequence of the split (order preserved), no
retained identifier contains the marker, every split identifier without
the marker is retained, with its full multiplicity; in particular
"a,b,opbeans-python-local" resolves to ["a", "b"]. -/
theorem c7_resolver_exact_characterization :
    resolveServices "a,b,opbeans-python-local" = ["a", "b"] ∧
    (∀ cfg : String, List.Sublist (resolveServices cfg) (pySplit ',' cfg)) ∧
    (∀ cfg : String, ∀ s, s ∈ resolveServices cfg
      → pyIn localServiceMarker s = false) ∧
    (∀ cfg : String, ∀ s, s ∈ pySplit ',' cfg
      → pyIn localServiceMarker s = false → s ∈ resolveServices cfg) ∧
    (∀ cfg : String, ∀ s, pyIn localServiceMarker s = false
      → List.count s (resolveServices cfg) = List.count s (pySplit ',' cfg)) := by
  refine ⟨by decide, ?_, ?_, ?_, ?_⟩
  · intro cfg
    exact List.filter_sublist _
  · intro cfg s hs
    have hkeep := List.of_mem_filter hs
    simpa using hkeep
  · intro cfg s hs hmark
    exact List.mem_filter.mpr ⟨hs, by simp [hmark]⟩
  · intro cfg s hmark
    exact List.count_filter (by simp [hmark])

/-- Claim C8's evaluation at the failing input: with the peer-list
configuration absent (or the empty string), the resolver yields the
one-element sequence [""] — Python's "".split(",") is [""] and the empty
string does not contain the local marker — which is NOT the empty
sequence, and a GET request can then be forwarded to the degenerate peer
"", with target URL "http://:3000" ++ path. -/
theorem c8_empty_config_yields_degenerate_candidate :
    resolveServicesEnv none = [""] ∧
    resolveServicesEnv (some "") = [""] ∧
    resolveServicesEnv none ≠ [] ∧
    decideForwarding "GET" (resolveServicesEnv none) 1 0 0
      = ForwardingDecision.Forward "" ∧
    buildTargetUrl "" "/api/products" = "http://:3000/api/products" ∧
    maybe_dt (fun _ => some 1)
      (fun _ => Except.ok (PeerResponse.mk 200 [] none)) none (some "1")
      (fun _ => (0 : ℕ)) { method := "GET", fullPath := "/api/products" } 0 0
      = Except.ok (Sum.inl (RelayedResponse.mk 200 [] "text/plain")) := by
  refine ⟨rfl, rfl, by decide, by decide, rfl, ?_⟩
  rfl

/-- Claim C9: an absent probability configuration, and a present one that
Python's float cannot parse, both give the effective probability 1/2; the
configuration is absorbed into a total value and no error escapes. -/
theorem c9_probability_default (pyFloat : String → Option ℚ) (s : String)
    (h : pyFloat s = none) :
    effectiveProbability pyFloat none = defaultProbability ∧
    effectiveProbability pyFloat (some s) = defaultProbability ∧
    defaultProbability = 1/2 := by
  refine ⟨rfl, ?_, rfl⟩
  unfold effectiveProbability
  simp only [h]

/-- Claim C9's witness: a float model that rejects "not-a-float" yields the
default probability both for the absent and for the malformed value. -/
theorem c9_witness :
    effectiveProbability (fun _ => none) none = defaultProbability ∧
    effectiveProbability (fun _ => none) (some "not-a-float")
      = defaultProbability ∧
    defaultProbability = 1/2 :=
  c9_probability_default (fun _ => none) "not-a-float" rfl

/-- Claim C10: a chosen peer identifier that already starts with "http://"
is used verbatim as the base URL — no ":3000" suffix is appended — so the
target URL is exactly the identifier concatenated with the original full
path. -/
theorem c10_absolute_peer_used_verbatim (peer fullPath : String)
    (h : pyStartsWith peer "http://" = true) :
    buildTargetUrl peer fullPath = peer ++ fullPath ∧
    buildOutboundRequest peer fullPath
      = { url := peer ++ fullPath, timeoutSeconds := 15 } := by
  constructor
  · unfold buildTargetUrl
    simp [h]
  · unfold buildOutboundRequest buildTargetUrl requestTimeoutSeconds
    simp [h]

/-- Claim C10's witness: peer "http://svc1" with path "/api/products?x=1"
yields the target "http://svc1/api/products?x=1". -/
theorem c10_witness :
    buildTargetUrl "http://svc1" "/api/products?x=1"
      = "http://svc1" ++ "/api/products?x=1" ∧
    buildOutboundRequest "http://svc1" "/api/products?x=1"
      = { url := "http://svc1" ++ "/api/products?x=1", timeoutSeconds := 15 } :=
  c10_absolute_peer_used_verbatim "http://svc1" "/api/products?x=1" (by decide)

end Opbeans
